import Mathlib

/-!
Verification development for the AgriBuddy conversational front-end
(`src/app.py`).  The script drives one chat turn per Streamlit rerun:
it resolves the user input (typed text, or audio transcribed through the
ElevenLabs client), appends a user entry to `st.session_state.history`,
creates a Gemini chat session and streams the reply, appends an assistant
entry, and optionally synthesizes speech for the reply.

The embedding below models that New-Chat turn path, the clear-history
action, and the startup client construction.  Remote services are
modelled by their observable outcomes supplied in a `TurnEnv`
(transcription result, stream fragments and optional mid-stream failure,
synthesis outcome); every call the script makes to a remote service is
recorded in the `TurnResult` so that call/no-call properties can be
stated.  Chat sessions carry a fresh id and the list of messages sent on
them, standing for the remote model's conversational memory.
-/

/-- One entry of `st.session_state.history`: a dict with keys
`role` and `text` (app.py lines 149, 172). -/
structure HistoryEntry where
  role : String
  text : String
deriving Repr, DecidableEq

/-- A Gemini chat session as produced by `model.start_chat()`
(app.py lines 67-72 and 158-162).  `sid` is a fresh identifier
distinguishing separately constructed sessions, `language` the language
named in the `system_instruction` the model was built with, and
`remoteMemory` the messages sent on this session (the remote model's
conversational memory). -/
structure ChatSession where
  sid : Nat
  language : String
  remoteMemory : List String
deriving Repr, DecidableEq

/-- The mutable `st.session_state` fields the script uses (lines 61-72),
plus `nextSid`, the supply of fresh session identifiers used to model
distinct `start_chat()` constructions. -/
structure AppState where
  history : List HistoryEntry
  language : String
  tts_enabled : Bool
  chat : ChatSession
  nextSid : Nat
deriving Repr, DecidableEq

/-- One entry of `lang_voice_map` (app.py lines 125-130). -/
structure LangConfig where
  code : String
  voice : String
deriving Repr, DecidableEq

/-- `lang_voice_map.get(selected_lang, default)` (app.py lines 125-133):
the four known languages map to their entries, anything else to the
English default `code="en", voice="Bella"`. -/
def lang_voice_map (lang : String) : LangConfig :=
  if lang = "Malayalam" then { code := "ml", voice := "Aria" }
  else if lang = "Hindi" then { code := "hi", voice := "Aria" }
  else if lang = "English" then { code := "en", voice := "Bella" }
  else if lang = "Spanish" then { code := "es", voice := "Sofia" }
  else { code := "en", voice := "Bella" }

/-- Outcome of `eleven_client.speech_to_text.convert` (app.py lines
141-146): a transcript, or a raised exception with message `errMsg`. -/
inductive SttOutcome where
  | success (text : String)
  | failure (errMsg : String)
deriving Repr, DecidableEq

/-- Behaviour of the streamed `send_message` reply (app.py lines
163-166): the `chunk.text` values yielded, and `some e` when the
iteration raises an exception with message `e` after those chunks. -/
structure StreamBehavior where
  chunks : List String
  failure : Option String
deriving Repr, DecidableEq

/-- Outcome of `eleven_client.text_to_speech.convert`
(app.py lines 177-185). -/
inductive TtsOutcome where
  | success
  | failure (errMsg : String)
deriving Repr, DecidableEq

/-- The external inputs of one rerun of the New-Chat branch:
whether `mic_recorder` returned audio with a `bytes` key (line 136),
what the STT call would return, what `st.chat_input` returned
(line 122), and how the model stream and the TTS call would behave. -/
structure TurnEnv where
  micAudio : Bool
  stt : SttOutcome
  typedPrompt : Option String
  stream : StreamBehavior
  tts : TtsOutcome
deriving Repr, DecidableEq

/-- Python truthiness of the `user_prompt` variable: `None` and the
empty string are falsy (the `if user_prompt:` test on line 148). -/
def truthy : Option String → Bool
  | none => false
  | some s => s != ""

/-- Result of the input-resolution phase (lines 136-146). -/
structure ResolveResult where
  prompt : Option String
  logs : List String
  sttN : Nat
deriving Repr, DecidableEq

/-- Lines 136-146: when mic audio with bytes is present and the
ElevenLabs client exists, attempt transcription; on success the
transcript becomes `user_prompt`, on failure the exception is caught,
a message is printed to the console, and `user_prompt` keeps the typed
value.  Otherwise `user_prompt` is just the typed input. -/
def resolveInput (elevenAvailable : Bool) (env : TurnEnv) : ResolveResult :=
  if env.micAudio && elevenAvailable then
    match env.stt with
    | SttOutcome.success t => { prompt := some t, logs := [], sttN := 1 }
    | SttOutcome.failure e =>
        { prompt := env.typedPrompt
          logs := ["[ERROR] STT failed, fallback to text input. (" ++ e ++ ")"]
          sttN := 1 }
  else { prompt := env.typedPrompt, logs := [], sttN := 0 }

/-- The accumulation `bot_text += chunk.text` guarded by
`if chunk.text:` (lines 163-166). -/
def concatChunks (chunks : List String) : String :=
  chunks.foldl (fun acc c => if c != "" then acc ++ c else acc) ""

/-- The value of `bot_text` after the try/except block (lines 156-170):
the concatenated chunks on success; on a failure with message `e` the
accumulated text is overwritten by the error string built on line 169. -/
def streamFinalText (sb : StreamBehavior) : String :=
  match sb.failure with
  | some e => "⚠️ Gemini error: " ++ e
  | none => concatChunks sb.chunks

/-- Everything observable about one rerun: the new session state,
user-visible error surfaces (`st.error`; the turn path never produces
one), console prints, the number of STT attempts, the prompts sent via
`send_message`, the number of `start_chat()` constructions, the TTS
calls made as (voice, text, language code) triples, the final content of
the assistant placeholder, and whether `st.audio` played a reply. -/
structure TurnResult where
  state : AppState
  uiErrors : List String
  consoleLogs : List String
  sttCalls : Nat
  modelCalls : List String
  sessionsCreated : Nat
  ttsCalls : List (String × String × String)
  displayedReply : Option String
  audioPlayed : Bool
deriving Repr, DecidableEq

/-- The body of `if user_prompt:` (lines 148-185) for a resolved prompt
`p`: append the user entry; build a fresh `GenerativeModel` for the
currently selected language and replace `st.session_state.chat` with
`model.start_chat()` (lines 158-162); send `p` and stream the reply into
`bot_text`, the except branch replacing it with the error message
(lines 163-170); append the assistant entry (line 172); then, if TTS is
enabled, `bot_text` is non-empty and the ElevenLabs client exists, call
text-to-speech with the mapped voice and language code, printing a
console message if it fails (lines 175-185). -/
def runResolvedTurn (elevenAvailable : Bool) (env : TurnEnv) (s : AppState)
    (p : String) (sttLogs : List String) (sttN : Nat) : TurnResult :=
  let lc := lang_voice_map s.language
  let bot_text := streamFinalText env.stream
  let newChat : ChatSession :=
    { sid := s.nextSid, language := s.language, remoteMemory := [p] }
  let ttsWanted := s.tts_enabled && (bot_text != "") && elevenAvailable
  { state :=
      { s with
        history := s.history ++
          [{ role := "user", text := p }, { role := "assistant", text := bot_text }]
        chat := newChat
        nextSid := s.nextSid + 1 }
    uiErrors := []
    consoleLogs := sttLogs ++
      (if ttsWanted then
        (match env.tts with
         | TtsOutcome.success => []
         | TtsOutcome.failure e =>
             ["[ERROR] TTS failed, showing text only. (" ++ e ++ ")"])
       else [])
    sttCalls := sttN
    modelCalls := [p]
    sessionsCreated := 1
    ttsCalls := if ttsWanted then [(lc.voice, bot_text, lc.code)] else []
    displayedReply := some bot_text
    audioPlayed := ttsWanted &&
      (match env.tts with
       | TtsOutcome.success => true
       | TtsOutcome.failure _ => false) }

/-- One full rerun of the New-Chat branch (lines 121-185): resolve the
input, and if it is truthy run the turn body, otherwise the rerun ends
with the state untouched (only the STT console message, if any, was
produced). -/
def runTurn (elevenAvailable : Bool) (env : TurnEnv) (s : AppState) : TurnResult :=
  let res := resolveInput elevenAvailable env
  if truthy res.prompt then
    runResolvedTurn elevenAvailable env s (res.prompt.getD "") res.logs res.sttN
  else
    { state := s
      uiErrors := []
      consoleLogs := res.logs
      sttCalls := res.sttN
      modelCalls := []
      sessionsCreated := 0
      ttsCalls := []
      displayedReply := none
      audioPlayed := false }

/-- A sequence of reruns, each feeding the state produced by the
previous one. -/
def runTurns (elevenAvailable : Bool) : List TurnEnv → AppState → AppState
  | [], s => s
  | env :: rest, s => runTurns elevenAvailable rest (runTurn elevenAvailable env s).state

/-- The `Clear Chat History` button handler (app.py lines 84-86):
`st.session_state.history = []` followed by `st.rerun()`.  No other
session-state field is assigned. -/
def clearHistory (s : AppState) : AppState :=
  { s with history := [] }

/-- The initial `st.session_state` (lines 61-72): empty history,
language Malayalam, TTS enabled, and a chat session created for
Malayalam. -/
def initState : AppState :=
  { history := []
    language := "Malayalam"
    tts_enabled := true
    chat := { sid := 0, language := "Malayalam", remoteMemory := [] }
    nextSid := 1 }

/-- Observable outcome of startup (lines 39-58). -/
structure StartupResult where
  halted : Bool
  elevenAvailable : Bool
  consoleLogs : List String
deriving Repr, DecidableEq

/-- Startup (lines 39-58): missing or empty API keys halt the app via
`st.stop()`; otherwise, if constructing the ElevenLabs client raises,
the exception is caught, `eleven_client` is set to `None`, a warning is
printed to the console, and the app continues. -/
def startup (googleKey elevenKey : Option String) (elevenCtorOk : Bool) : StartupResult :=
  if !(truthy googleKey) || !(truthy elevenKey) then
    { halted := true, elevenAvailable := false, consoleLogs := [] }
  else if elevenCtorOk then
    { halted := false, elevenAvailable := true, consoleLogs := [] }
  else
    { halted := false
      elevenAvailable := false
      consoleLogs := ["[WARN] ElevenLabs not available, fallback to text only."] }

/-- The two history entries a resolved turn appends: the user entry with
the resolved prompt, then the assistant entry with the final reply. -/
def turnEntries (elevenAvailable : Bool) (env : TurnEnv) : List HistoryEntry :=
  [{ role := "user", text := (resolveInput elevenAvailable env).prompt.getD "" },
   { role := "assistant", text := streamFinalText env.stream }]

/-- The history contributed by a sequence of resolved turns, in order. -/
def allEntries (elevenAvailable : Bool) : List TurnEnv → List HistoryEntry
  | [] => []
  | env :: rest => turnEntries elevenAvailable env ++ allEntries elevenAvailable rest

/-- Concrete prior state: one completed Malayalam turn, the chat session
tagged `Malayalam` and holding the earlier message in remote memory. -/
def priorState : AppState :=
  { history := [{ role := "user", text := "earlier" },
                { role := "assistant", text := "answer" }]
    language := "Malayalam"
    tts_enabled := true
    chat := { sid := 3, language := "Malayalam", remoteMemory := ["earlier"] }
    nextSid := 4 }

/-- A plain typed-text turn with a successful one-chunk stream. -/
def simpleEnv : TurnEnv :=
  { micAudio := false
    stt := SttOutcome.success ""
    typedPrompt := some "hi"
    stream := { chunks := ["ok"], failure := none }
    tts := TtsOutcome.success }

theorem runTurn_resolved (elevenAvailable : Bool) (env : TurnEnv) (s : AppState)
    (h : truthy (resolveInput elevenAvailable env).prompt = true) :
    runTurn elevenAvailable env s =
      runResolvedTurn elevenAvailable env s
        ((resolveInput elevenAvailable env).prompt.getD "")
        (resolveInput elevenAvailable env).logs
        (resolveInput elevenAvailable env).sttN := by
  simp [runTurn, h]

theorem runTurn_unresolved (elevenAvailable : Bool) (env : TurnEnv) (s : AppState)
    (h : truthy (resolveInput elevenAvailable env).prompt = false) :
    runTurn elevenAvailable env s =
      { state := s
        uiErrors := []
        consoleLogs := (resolveInput elevenAvailable env).logs
        sttCalls := (resolveInput elevenAvailable env).sttN
        modelCalls := []
        sessionsCreated := 0
        ttsCalls := []
        displayedReply := none
        audioPlayed := false } := by
  simp [runTurn, h]

theorem runTurn_history_resolved (elevenAvailable : Bool) (env : TurnEnv) (s : AppState)
    (h : truthy (resolveInput elevenAvailable env).prompt = true) :
    (runTurn elevenAvailable env s).state.history =
      s.history ++ turnEntries elevenAvailable env := by
  rw [runTurn_resolved elevenAvailable env s h]
  simp [runResolvedTurn, turnEntries]

/-- Claim C1: the spec's Chat Session Manager contract says that when the
configured response language equals the language the active session was
created for, the existing session is returned unchanged, preserving the
remote model's conversational memory.  The code instead executes
`model.start_chat()` on every turn (app.py lines 158-162): evaluated at a
state whose configured language (Malayalam) equals the active session's
tagged language, a turn still constructs one new session, the session id
changes, and the remote memory of the prior turn is gone — only the new
prompt remains. -/
theorem session_recreated_every_turn :
    priorState.language = priorState.chat.language ∧
    (runTurn true simpleEnv priorState).sessionsCreated = 1 ∧
    (runTurn true simpleEnv priorState).state.chat.sid ≠ priorState.chat.sid ∧
    (runTurn true simpleEnv priorState).state.chat.remoteMemory = ["hi"] := by
  refine ⟨rfl, ?_, ?_, ?_⟩ <;> decide

/-- Claim C8: `lang_voice_map.get(selected_lang, default)` returns the
English entry (code "en", voice "Bella") for every language outside the
four-entry table, and the mapped entry for each of the four known
languages. -/
theorem lang_voice_map_fallback (lang : String)
    (h : lang ≠ "Malayalam" ∧ lang ≠ "Hindi" ∧ lang ≠ "English" ∧ lang ≠ "Spanish") :
    lang_voice_map lang = { code := "en", voice := "Bella" } ∧
    lang_voice_map "Malayalam" = { code := "ml", voice := "Aria" } ∧
    lang_voice_map "Hindi" = { code := "hi", voice := "Aria" } ∧
    lang_voice_map "English" = { code := "en", voice := "Bella" } ∧
    lang_voice_map "Spanish" = { code := "es", voice := "Sofia" } := by
  obtain ⟨h1, h2, h3, h4⟩ := h
  refine ⟨?_, rfl, rfl, rfl, rfl⟩
  simp [lang_voice_map, h1, h2, h3, h4]

/-- Witness for C8 at the unknown language "French". -/
theorem lang_voice_map_fallback_witness :
    lang_voice_map "French" = { code := "en", voice := "Bella" } ∧
    lang_voice_map "Malayalam" = { code := "ml", voice := "Aria" } ∧
    lang_voice_map "Hindi" = { code := "hi", voice := "Aria" } ∧
    lang_voice_map "English" = { code := "en", voice := "Bella" } ∧
    lang_voice_map "Spanish" = { code := "es", voice := "Sofia" } :=
  lang_voice_map_fallback "French" (by refine ⟨?_, ?_, ?_, ?_⟩ <;> decide)

/-- Claim C10: the clear-history handler (app.py lines 84-86) assigns
only `st.session_state.history`; the configured language, the TTS
toggle, the stored chat session and the fresh-id supply all keep their
prior values. -/
theorem clear_history_frame (s : AppState) :
    (clearHistory s).history = [] ∧
    (clearHistory s).language = s.language ∧
    (clearHistory s).tts_enabled = s.tts_enabled ∧
    (clearHistory s).chat = s.chat ∧
    (clearHistory s).nextSid = s.nextSid :=
  ⟨rfl, rfl, rfl, rfl, rfl⟩

theorem runTurns_history (elevenAvailable : Bool) (envs : List TurnEnv) (s : AppState)
    (h : ∀ env ∈ envs, truthy (resolveInput elevenAvailable env).prompt = true) :
    (runTurns elevenAvailable envs s).history = s.history ++ allEntries elevenAvailable envs := by
  induction envs generalizing s with
  | nil => simp [runTurns, allEntries]
  | cons env rest ih =>
      have hhd : truthy (resolveInput elevenAvailable env).prompt = true :=
        h env (List.mem_cons_self env rest)
      have htl : ∀ e ∈ rest, truthy (resolveInput elevenAvailable e).prompt = true :=
        fun e he => h e (List.mem_cons_of_mem env he)
      calc (runTurns elevenAvailable (env :: rest) s).history
          = (runTurns elevenAvailable rest (runTurn elevenAvailable env s).state).history := rfl
        _ = (runTurn elevenAvailable env s).state.history ++ allEntries elevenAvailable rest :=
            ih (runTurn elevenAvailable env s).state htl
        _ = (s.history ++ turnEntries elevenAvailable env) ++ allEntries elevenAvailable rest := by
            rw [runTurn_history_resolved elevenAvailable env s hhd]
        _ = s.history ++ allEntries elevenAvailable (env :: rest) := by
            rw [List.append_assoc]; rfl

theorem allEntries_length (elevenAvailable : Bool) (envs : List TurnEnv) :
    (allEntries elevenAvailable envs).length = 2 * envs.length := by
  induction envs with
  | nil => rfl
  | cons env rest ih =>
      simp [allEntries, turnEntries, ih, List.length_cons, Nat.mul_add, Nat.mul_one]

/-- Claim C2: starting from an empty history, a sequence of reruns whose
inputs all resolve to a truthy prompt leaves the history equal to the
chronological concatenation of, per turn, one user entry carrying the
resolved prompt followed by one assistant entry carrying the final reply
text — in particular exactly 2N entries after N such turns. -/
theorem history_two_entries_per_turn (elevenAvailable : Bool) (envs : List TurnEnv)
    (s : AppState) (h0 : s.history = [])
    (h : ∀ env ∈ envs, truthy (resolveInput elevenAvailable env).prompt = true) :
    (runTurns elevenAvailable envs s).history = allEntries elevenAvailable envs ∧
    (runTurns elevenAvailable envs s).history.length = 2 * envs.length := by
  have hh := runTurns_history elevenAvailable envs s h
  rw [h0, List.nil_append] at hh
  exact ⟨hh, by rw [hh, allEntries_length]⟩

/-- A typed turn followed by a mic turn, both resolving successfully. -/
def envA : TurnEnv :=
  { micAudio := false
    stt := SttOutcome.success ""
    typedPrompt := some "hello"
    stream := { chunks := ["Hi", " there"], failure := none }
    tts := TtsOutcome.success }

/-- A mic turn whose transcription succeeds. -/
def envB : TurnEnv :=
  { micAudio := true
    stt := SttOutcome.success "voice question"
    typedPrompt := none
    stream := { chunks := ["Sure", "!"], failure := none }
    tts := TtsOutcome.failure "tts down" }

/-- Witness for C2: two resolved turns from the initial (empty-history)
state yield exactly the four expected entries. -/
theorem history_two_entries_per_turn_witness :
    (runTurns true [envA, envB] initState).history = allEntries true [envA, envB] ∧
    (runTurns true [envA, envB] initState).history.length = 2 * [envA, envB].length :=
  history_two_entries_per_turn true [envA, envB] initState rfl (by decide)

/-- A typed turn whose model stream fails immediately with message
"boom". -/
def failEnv : TurnEnv :=
  { micAudio := false
    stt := SttOutcome.success ""
    typedPrompt := some "hi"
    stream := { chunks := [], failure := some "boom" }
    tts := TtsOutcome.success }

/-- A typed turn whose model stream yields "Hello" and " world" and then
fails with message "boom". -/
def midStreamEnv : TurnEnv :=
  { micAudio := false
    stt := SttOutcome.success ""
    typedPrompt := some "hi"
    stream := { chunks := ["Hello", " world"], failure := some "boom" }
    tts := TtsOutcome.success }

/-- Claim C3: when the stream fails with message `e`, the turn still
completes: the reply shown to the user is the error string
`"⚠️ Gemini error: " ++ e` (whose character data begins with the warning
marker, distinguishing it from normal model output), the history gains
the user entry followed by an assistant entry carrying exactly that
error text, and `send_message` was invoked exactly once (no retry).  The
except branch converts the failure into this substitute text, so it
never escapes to the presentation layer — `runTurn` is total. -/
theorem stream_failure_error_reply (elevenAvailable : Bool) (env : TurnEnv)
    (s : AppState) (e : String)
    (hres : truthy (resolveInput elevenAvailable env).prompt = true)
    (hfail : env.stream.failure = some e) :
    (runTurn elevenAvailable env s).displayedReply =
      some ("⚠️ Gemini error: " ++ e) ∧
    (runTurn elevenAvailable env s).state.history =
      s.history ++
        [{ role := "user", text := (resolveInput elevenAvailable env).prompt.getD "" },
         { role := "assistant", text := "⚠️ Gemini error: " ++ e }] ∧
    (runTurn elevenAvailable env s).modelCalls.length = 1 ∧
    ("⚠️ Gemini error: " ++ e).data = "⚠️".data ++ (" Gemini error: ".data ++ e.data) := by
  rw [runTurn_resolved elevenAvailable env s hres]
  refine ⟨?_, ?_, ?_, ?_⟩
  · simp [runResolvedTurn, streamFinalText, hfail]
  · simp [runResolvedTurn, streamFinalText, hfail]
  · simp [runResolvedTurn]
  · rw [String.data_append, ← List.append_assoc]
    rfl

/-- Witness for C3 at `failEnv` from the initial state. -/
theorem stream_failure_error_reply_witness :
    (runTurn true failEnv initState).displayedReply =
      some ("⚠️ Gemini error: " ++ "boom") ∧
    (runTurn true failEnv initState).state.history =
      initState.history ++
        [{ role := "user", text := (resolveInput true failEnv).prompt.getD "" },
         { role := "assistant", text := "⚠️ Gemini error: " ++ "boom" }] ∧
    (runTurn true failEnv initState).modelCalls.length = 1 ∧
    ("⚠️ Gemini error: " ++ "boom").data =
      "⚠️".data ++ (" Gemini error: ".data ++ "boom".data) :=
  stream_failure_error_reply true failEnv initState "boom" (by decide) rfl

/-- Counterexample to claim C4: with fragments "Hello", " world"
received and then a failure "boom", the final assistant entry is the
error string "⚠️ Gemini error: boom"; the concatenation "Hello world" of
the received fragments does not occur in it — the partial output is
replaced, not kept. -/
theorem partial_fragments_not_kept_cex :
    (runTurn true midStreamEnv initState).state.history.getLast? =
      some { role := "assistant", text := "⚠️ Gemini error: boom" } ∧
    concatChunks midStreamEnv.stream.chunks = "Hello world" ∧
    ¬ ("Hello world".data <:+: ("⚠️ Gemini error: boom").data) := by
  refine ⟨by decide, by decide, by decide⟩

/-- Claim C4 as amended: on a mid-stream failure with message `e` the
accumulated fragments are discarded — whatever chunks the stream
yielded, the final assistant history entry carries exactly the error
string `"⚠️ Gemini error: " ++ e` (line 169 overwrites `bot_text`). -/
theorem stream_failure_discards_fragments (elevenAvailable : Bool) (env : TurnEnv)
    (s : AppState) (e : String)
    (hres : truthy (resolveInput elevenAvailable env).prompt = true)
    (hfail : env.stream.failure = some e) :
    (runTurn elevenAvailable env s).state.history.getLast? =
      some { role := "assistant", text := "⚠️ Gemini error: " ++ e } := by
  rw [runTurn_history_resolved elevenAvailable env s hres]
  have hsplit :
      s.history ++ turnEntries elevenAvailable env =
        (s.history ++
          [{ role := "user",
             text := (resolveInput elevenAvailable env).prompt.getD "" }]) ++
          [{ role := "assistant", text := streamFinalText env.stream }] := by
    simp [turnEntries]
  rw [hsplit, List.getLast?_concat]
  simp [streamFinalText, hfail]

/-- Witness for the amended C4 at `midStreamEnv`. -/
theorem stream_failure_discards_fragments_witness :
    (runTurn true midStreamEnv initState).state.history.getLast? =
      some { role := "assistant", text := "⚠️ Gemini error: " ++ "boom" } :=
  stream_failure_discards_fragments true midStreamEnv initState "boom" (by decide) rfl

/-- Counterexample to claim C5: the TTS guard on line 175 checks only
that TTS is enabled, `bot_text` is non-empty and the client exists — it
does not exclude error placeholders.  With TTS enabled in the initial
state, a turn whose stream fails ends with the error-marked reply
"⚠️ Gemini error: boom", and text-to-speech IS invoked on that error
text. -/
theorem tts_called_on_error_reply_cex :
    initState.tts_enabled = true ∧
    (runTurn true failEnv initState).state.history.getLast? =
      some { role := "assistant", text := "⚠️ Gemini error: boom" } ∧
    (runTurn true failEnv initState).ttsCalls =
      [("Aria", "⚠️ Gemini error: boom", "ml")] := by
  refine ⟨rfl, by decide, by decide⟩

/-- Claim C5 as amended: the text-to-speech operation is invoked on a
rerun exactly when the input resolved, `tts_enabled` is true, the final
reply text is non-empty, and the ElevenLabs client exists — with no
exclusion of error placeholders.  In particular with `tts_enabled =
false` no synthesis call ever occurs. -/
theorem tts_call_condition (elevenAvailable : Bool) (env : TurnEnv) (s : AppState) :
    (runTurn elevenAvailable env s).ttsCalls ≠ [] ↔
      (truthy (resolveInput elevenAvailable env).prompt = true ∧
       s.tts_enabled = true ∧ streamFinalText env.stream ≠ "" ∧
       elevenAvailable = true) := by
  by_cases h : truthy (resolveInput elevenAvailable env).prompt = true
  · rw [runTurn_resolved elevenAvailable env s h]
    simp only [runResolvedTurn, h, true_and]
    by_cases h1 : s.tts_enabled = true <;>
      by_cases h2 : streamFinalText env.stream = "" <;>
        by_cases h3 : elevenAvailable = true <;>
          simp [h1, h2, h3, bne_iff_ne]
  · have h' : truthy (resolveInput elevenAvailable env).prompt = false := by
      simpa using h
    rw [runTurn_unresolved elevenAvailable env s h']
    simp [h]

/-- A rerun with mic audio whose transcription raises "netdown" and no
typed input. -/
def sttFailEnv : TurnEnv :=
  { micAudio := true
    stt := SttOutcome.failure "netdown"
    typedPrompt := none
    stream := { chunks := [], failure := none }
    tts := TtsOutcome.success }

/-- Counterexample to claim C6: a failed transcription produces no
user-visible error — the except branch on line 146 only prints to the
server console.  At a concrete failed-transcription rerun the
user-visible error surfaces stay empty while the console records the
failure (the history does stay unchanged). -/
theorem stt_failure_error_not_visible_cex :
    (runTurn true sttFailEnv initState).uiErrors = [] ∧
    (runTurn true sttFailEnv initState).consoleLogs =
      ["[ERROR] STT failed, fallback to text input. (netdown)"] ∧
    (runTurn true sttFailEnv initState).state.history = initState.history := by
  refine ⟨by decide, by decide, by decide⟩

/-- Claim C6 as amended: when mic audio is present, transcription fails
and no typed input accompanies the rerun, the failure is logged to the
console only (nothing user-visible), and the turn is aborted: the whole
session state — history included — is unchanged and no model call is
made. -/
theorem stt_failure_console_log_and_abort (env : TurnEnv) (s : AppState) (e : String)
    (hmic : env.micAudio = true)
    (hstt : env.stt = SttOutcome.failure e)
    (htyped : truthy env.typedPrompt = false) :
    (runTurn true env s).state = s ∧
    (runTurn true env s).modelCalls = [] ∧
    (runTurn true env s).uiErrors = [] ∧
    (runTurn true env s).consoleLogs =
      ["[ERROR] STT failed, fallback to text input. (" ++ e ++ ")"] := by
  have hres : resolveInput true env =
      { prompt := env.typedPrompt
        logs := ["[ERROR] STT failed, fallback to text input. (" ++ e ++ ")"]
        sttN := 1 } := by
    simp [resolveInput, hmic, hstt]
  have h' : truthy (resolveInput true env).prompt = false := by
    rw [hres]; exact htyped
  rw [runTurn_unresolved true env s h', hres]
  exact ⟨rfl, rfl, rfl, rfl⟩

/-- Witness for the amended C6 at `sttFailEnv`. -/
theorem stt_failure_console_log_and_abort_witness :
    (runTurn true sttFailEnv initState).state = initState ∧
    (runTurn true sttFailEnv initState).modelCalls = [] ∧
    (runTurn true sttFailEnv initState).uiErrors = [] ∧
    (runTurn true sttFailEnv initState).consoleLogs =
      ["[ERROR] STT failed, fallback to text input. (" ++ "netdown" ++ ")"] :=
  stt_failure_console_log_and_abort sttFailEnv initState "netdown" rfl rfl rfl

/-- Counterexample to claim C7: the clear-history handler does not
invalidate the stored chat session — at a state holding a session with
non-empty remote memory, the session after the clear is identical to the
one before (only the history was emptied). -/
theorem clear_keeps_prior_session_cex :
    (clearHistory priorState).chat = priorState.chat ∧
    priorState.chat.remoteMemory ≠ [] ∧
    (clearHistory priorState).history = [] := by
  refine ⟨rfl, by decide, rfl⟩

/-- Claim C7 as amended: clearing resets the history to empty and leaves
the stored chat session untouched; despite that, a subsequent resolved
turn cannot recall pre-clear remote context, because every turn
constructs a fresh session (app.py lines 158-162): the turn after the
clear creates exactly one new session, with a fresh id and a remote
memory holding only that turn's prompt. -/
theorem clear_history_then_fresh_session (s : AppState) (elevenAvailable : Bool)
    (env : TurnEnv)
    (hres : truthy (resolveInput elevenAvailable env).prompt = true) :
    (clearHistory s).history = [] ∧
    (clearHistory s).chat = s.chat ∧
    (runTurn elevenAvailable env (clearHistory s)).sessionsCreated = 1 ∧
    (runTurn elevenAvailable env (clearHistory s)).state.chat.sid = s.nextSid ∧
    (runTurn elevenAvailable env (clearHistory s)).state.chat.remoteMemory =
      [(resolveInput elevenAvailable env).prompt.getD ""] := by
  refine ⟨rfl, rfl, ?_, ?_, ?_⟩ <;>
    rw [runTurn_resolved elevenAvailable env (clearHistory s) hres] <;>
      simp [runResolvedTurn, clearHistory]

/-- Witness for the amended C7: clearing `priorState` and then running a
plain typed turn. -/
theorem clear_history_then_fresh_session_witness :
    (clearHistory priorState).history = [] ∧
    (clearHistory priorState).chat = priorState.chat ∧
    (runTurn true simpleEnv (clearHistory priorState)).sessionsCreated = 1 ∧
    (runTurn true simpleEnv (clearHistory priorState)).state.chat.sid =
      priorState.nextSid ∧
    (runTurn true simpleEnv (clearHistory priorState)).state.chat.remoteMemory =
      [(resolveInput true simpleEnv).prompt.getD ""] :=
  clear_history_then_fresh_session priorState true simpleEnv (by decide)

/-- Claim C9: when both API keys are present but constructing the
ElevenLabs client raises, startup catches the exception, prints a
console warning and continues (no halt) with `eleven_client = None`;
thereafter every rerun makes no transcription attempt (mic audio is
silently ignored, with no user-visible error and no console output) and
no text-to-speech call, whatever the inputs, the TTS toggle and the
reply. -/
theorem eleven_ctor_failure_text_only (gk ek : String) (env : TurnEnv) (s : AppState)
    (hgk : gk ≠ "") (hek : ek ≠ "") :
    (startup (some gk) (some ek) false).halted = false ∧
    (startup (some gk) (some ek) false).elevenAvailable = false ∧
    (startup (some gk) (some ek) false).consoleLogs =
      ["[WARN] ElevenLabs not available, fallback to text only."] ∧
    (runTurn false env s).sttCalls = 0 ∧
    (runTurn false env s).uiErrors = [] ∧
    (runTurn false env s).consoleLogs = [] ∧
    (runTurn false env s).ttsCalls = [] := by
  have h1 : truthy (some gk) = true := by
    simp [truthy, bne_iff_ne, hgk]
  have h2 : truthy (some ek) = true := by
    simp [truthy, bne_iff_ne, hek]
  have hres : resolveInput false env =
      { prompt := env.typedPrompt, logs := [], sttN := 0 } := by
    simp [resolveInput]
  have key : (runTurn false env s).sttCalls = 0 ∧
      (runTurn false env s).uiErrors = [] ∧
      (runTurn false env s).consoleLogs = [] ∧
      (runTurn false env s).ttsCalls = [] := by
    by_cases ht : truthy (resolveInput false env).prompt = true
    · rw [runTurn_resolved false env s ht]
      simp [runResolvedTurn, hres]
    · have ht' : truthy (resolveInput false env).prompt = false := by simpa using ht
      rw [runTurn_unresolved false env s ht']
      simp [hres]
  refine ⟨?_, ?_, ?_, key.1, key.2.1, key.2.2.1, key.2.2.2⟩ <;>
    simp [startup, h1, h2]

/-- Witness for C9: keys "g" and "e", a failed client construction, and
a mic-audio rerun with TTS enabled from the initial state. -/
theorem eleven_ctor_failure_text_only_witness :
    (startup (some "g") (some "e") false).halted = false ∧
    (startup (some "g") (some "e") false).elevenAvailable = false ∧
    (startup (some "g") (some "e") false).consoleLogs =
      ["[WARN] ElevenLabs not available, fallback to text only."] ∧
    (runTurn false envB initState).sttCalls = 0 ∧
    (runTurn false envB initState).uiErrors = [] ∧
    (runTurn false envB initState).consoleLogs = [] ∧
    (runTurn false envB initState).ttsCalls = [] :=
  eleven_ctor_failure_text_only "g" "e" envB initState (by decide) (by decide)
